import Mathlib

/-!
Verification development for the Geopolitical Market Analyser repository.

The repository is a React presentation layer over a backend API.  The
computational fragments that live in the repository itself are the small
classification helpers of the pages (risk level, impact level, sentiment
colouring, summary bucketing) and the mock-data fallback of the data
fetching code.  Those are embedded here directly from the source, over ℚ
as the shallow embedding of the JavaScript numbers.  The scoring engine
proper (SentimentAggregator, RegionRiskScorer, TrendClassifier,
AnalysisOrchestrator) is not present in the repository sources and is
modelled from the written specification where a property needs it; each
such definition says so in its doc comment.
-/

namespace GeoMarket

/-- Risk level helper of the Dashboard page
(frontend/src/pages/Dashboard.js, getRiskLevel):
risk < 0.3 gives Low, otherwise risk < 0.6 gives Medium, otherwise High. -/
def Dashboard.getRiskLevel (risk : ℚ) : String :=
  if risk < 3/10 then "Low"
  else if risk < 6/10 then "Medium"
  else "High"

/-- Risk level helper of the RiskAssessment page
(frontend/src/pages/Settings.js bundle, getRiskLevel): identical text to
the Dashboard helper, thresholds 0.3 and 0.6. -/
def RiskAssessment.getRiskLevel (risk : ℚ) : String :=
  if risk < 3/10 then "Low"
  else if risk < 6/10 then "Medium"
  else "High"

/-- One entry of the riskData list of the RiskAssessment page:
{region, risk, factors, trend}.  Only the fields the summary logic reads
are kept; factors and trend are carried as plain strings. -/
structure RegionRisk where
  region : String
  risk : ℚ
  trend : String
deriving DecidableEq

/-- Low Risk Regions bucket of the Risk Summary card:
riskData.filter(r => r.risk < 0.3).length. -/
def RiskAssessment.lowRiskCount (riskData : List RegionRisk) : Nat :=
  (riskData.filter fun r => decide (r.risk < 3/10)).length

/-- Medium Risk Regions bucket of the Risk Summary card:
riskData.filter(r => r.risk >= 0.3 && r.risk < 0.6).length. -/
def RiskAssessment.mediumRiskCount (riskData : List RegionRisk) : Nat :=
  (riskData.filter fun r => decide (3/10 ≤ r.risk ∧ r.risk < 6/10)).length

/-- High Risk Regions bucket of the Risk Summary card:
riskData.filter(r => r.risk >= 0.6).length. -/
def RiskAssessment.highRiskCount (riskData : List RegionRisk) : Nat :=
  (riskData.filter fun r => decide (6/10 ≤ r.risk)).length

/-- One entry of the impactData list of the MarketImpact page
(frontend/src/pages/MarketImpact.js): {sector, impact, volatility,
sentiment, volume}. -/
structure SectorImpact where
  sector : String
  impact : ℚ
  volatility : ℚ
  sentiment : ℚ
  volume : ℚ
deriving DecidableEq

/-- Impact level helper of the MarketImpact page (getImpactLevel):
impact > 0.7 gives High, otherwise impact > 0.4 gives Medium, otherwise
Low. -/
def MarketImpact.getImpactLevel (impact : ℚ) : String :=
  if impact > 7/10 then "High"
  else if impact > 4/10 then "Medium"
  else "Low"

/-- Inline recommendation ternary of the Sector Impact Analysis card
(MarketImpact.js, the Recommendation cell): impact > 0.7 gives
Monitor Closely, otherwise impact > 0.4 gives Watch for Changes,
otherwise Stable. -/
def MarketImpact.recommendation (impact : ℚ) : String :=
  if impact > 7/10 then "Monitor Closely"
  else if impact > 4/10 then "Watch for Changes"
  else "Stable"

/-- High Impact Sectors list of the Investment Recommendations card:
impactData.filter(item => item.impact > 0.7). -/
def MarketImpact.highImpactSectors (impactData : List SectorImpact) : List SectorImpact :=
  impactData.filter fun item => decide (item.impact > 7/10)

/-- Stable Sectors list of the Investment Recommendations card:
impactData.filter(item => item.impact < 0.4). -/
def MarketImpact.stableSectors (impactData : List SectorImpact) : List SectorImpact :=
  impactData.filter fun item => decide (item.impact < 4/10)

/-- News item shape used by the RealTimeAnalysis page; sentiment is the
pre-scored value in [-1, 1]. -/
structure NewsItem where
  id : Nat
  title : String
  source : String
  publishedAt : String
  summary : String
  sentiment : ℚ
  region : String
deriving DecidableEq

/-- Market quote shape used by the RealTimeAnalysis page. -/
structure MarketQuote where
  symbol : String
  value : ℚ
  change : ℚ
  timestamp : String
deriving DecidableEq

/-- Sentiment colour helper of the RealTimeAnalysis page
(getSentimentColor): sentiment > 0.3 gives the success colour,
sentiment < -0.3 gives the danger colour, otherwise the neutral grey. -/
def RealTime.getSentimentColor (sentiment : ℚ) : String :=
  if sentiment > 3/10 then "text-success-600"
  else if sentiment < -(3/10) then "text-danger-600"
  else "text-gray-600"

/-- Sentiment icon helper of the RealTimeAnalysis page (getSentimentIcon),
with the icon component names standing for the rendered icons. -/
def RealTime.getSentimentIcon (sentiment : ℚ) : String :=
  if sentiment > 3/10 then "CheckCircle"
  else if sentiment < -(3/10) then "AlertTriangle"
  else "Clock"

/-- Hard-coded mock news of the fetchData catch branch of the
RealTimeAnalysis page (the comment there reads: Mock data for
demonstration). -/
def RealTime.mockNews : List NewsItem :=
  [⟨1, "New trade agreement between US and EU announced", "Reuters",
     "2024-01-15T10:30:00Z", "Major breakthrough in transatlantic trade relations...",
     8/10, "North America"⟩,
   ⟨2, "Tensions rise in South China Sea", "BBC News",
     "2024-01-15T09:15:00Z", "Regional tensions escalate as multiple nations assert territorial claims...",
     -(6/10), "Asia-Pacific"⟩,
   ⟨3, "Energy prices stabilize in European markets", "Financial Times",
     "2024-01-15T08:45:00Z", "Positive developments in energy supply chains...",
     4/10, "Europe"⟩]

/-- Hard-coded mock market data of the fetchData catch branch of the
RealTimeAnalysis page. -/
def RealTime.mockMarketData : List MarketQuote :=
  [⟨"AAPL", 15025/100, 25/10, "2024-01-15T10:00:00Z"⟩,
   ⟨"GOOGL", 275080/100, -(12/10), "2024-01-15T10:00:00Z"⟩,
   ⟨"MSFT", 38045/100, 18/10, "2024-01-15T10:00:00Z"⟩,
   ⟨"XOM", 9530/100, 5/10, "2024-01-15T10:00:00Z"⟩,
   ⟨"JPM", 14575/100, -(8/10), "2024-01-15T10:00:00Z"⟩]

/-- fetchData of the RealTimeAnalysis page.  The source awaits
Promise.all over the news request and the market request, so a rejection
of either one rejects the whole join; the catch branch then assigns the
hard-coded mock lists to BOTH states.  A failed source is modelled as
none, a delivered one as some of its list; the result is the pair of
lists the page ends up rendering.  The state shape carries no degraded
marker of any kind. -/
def RealTime.fetchData :
    Option (List NewsItem) → Option (List MarketQuote) → List NewsItem × List MarketQuote
  | some ns, some ms => (ns, ms)
  | _, _ => (RealTime.mockNews, RealTime.mockMarketData)

/-- One point of the marketHistory list of the HistoricalAnalysis page. -/
structure MarketHistoryPoint where
  date : String
  price : ℚ
  volume : ℚ
  volatility : ℚ
deriving DecidableEq

/-- Avg Price cell of the Market Summary card of the HistoricalAnalysis
page: marketHistory.length > 0 selects the mean of the prices, otherwise
the rendered value is 0.00. -/
def Historical.avgPrice (marketHistory : List MarketHistoryPoint) : ℚ :=
  if marketHistory.length > 0 then
    (marketHistory.map fun p => p.price).sum / marketHistory.length
  else 0

/-- Avg Volume cell of the Market Summary card (rendered in millions):
the mean of the volumes divided by 1000000, or 0 on an empty list. -/
def Historical.avgVolumeMillions (marketHistory : List MarketHistoryPoint) : ℚ :=
  if marketHistory.length > 0 then
    (marketHistory.map fun p => p.volume).sum / marketHistory.length / 1000000
  else 0

/-- Avg Volatility cell of the Market Summary card (rendered as a
percentage): the mean of the volatilities times 100, or 0 on an empty
list. -/
def Historical.avgVolatilityPercent (marketHistory : List MarketHistoryPoint) : ℚ :=
  if marketHistory.length > 0 then
    (marketHistory.map fun p => p.volatility).sum / marketHistory.length * 100
  else 0

/-- Positive classification of a sentiment value, threshold 0.3; the same
comparison as getSentimentColor and getSentimentIcon of the
RealTimeAnalysis page. -/
def isPositiveSent (s : ℚ) : Bool := decide (s > 3/10)

/-- Negative classification of a sentiment value, threshold -0.3; the
same comparison as getSentimentColor and getSentimentIcon. -/
def isNegativeSent (s : ℚ) : Bool := decide (s < -(3/10))

/-- Neutral classification of a sentiment value: neither positive nor
negative. -/
def isNeutralSent (s : ℚ) : Bool := !(isPositiveSent s) && !(isNegativeSent s)

/-- Aggregate sentiment summary: {positiveShare, negativeShare,
neutralShare, meanSentiment}. -/
structure SentimentSummary where
  positiveShare : ℚ
  negativeShare : ℚ
  neutralShare : ℚ
  meanSentiment : ℚ
deriving DecidableEq

/-- Modelled from the spec: SentimentAggregator (spec 4.1) is missing
from the repository sources (only the presentation layer exists).  Shares
are the counts of items with sentiment > 0.3, sentiment < -0.3, and the
rest, each normalized by the item count; the mean is the sum of the
sentiments over the count; the empty input returns all zeros and does not
fail. -/
def aggregateSentiment (items : List NewsItem) : SentimentSummary :=
  if items.length = 0 then ⟨0, 0, 0, 0⟩
  else
    ⟨((items.countP fun i => isPositiveSent i.sentiment : ℕ) : ℚ) / items.length,
     ((items.countP fun i => isNegativeSent i.sentiment : ℕ) : ℚ) / items.length,
     ((items.countP fun i => isNeutralSent i.sentiment : ℕ) : ℚ) / items.length,
     ((items.map fun i => i.sentiment).sum) / items.length⟩

/-- Three-valued trend classification. -/
inductive Trend where
  | increasing
  | decreasing
  | stable
deriving DecidableEq

/-- Modelled from the spec: TrendClassifier (spec 4.4) is missing from
the repository sources.  delta is latest minus previous; a delta smaller
than the threshold in magnitude is stable, then a positive delta is
increasing, a negative one decreasing.  The threshold (default 0.03) is a
parameter, not a hard-coded constant. -/
def classifyTrend (threshold prev latest : ℚ) : Trend :=
  if |latest - prev| < threshold then .stable
  else if latest - prev > 0 then .increasing
  else .decreasing

/-- Modelled from the spec: TrendClassifier over an ordered (oldest to
newest) snapshot list compares the latest snapshot with the previous one;
fewer than two snapshots return stable by convention and never fail. -/
def trendOfSnapshots (threshold : ℚ) (snapshots : List ℚ) : Trend :=
  match snapshots.reverse with
  | latest :: prev :: _ => classifyTrend threshold prev latest
  | _ => .stable

/-- Three-valued risk level with the ordering Low < Medium < High. -/
inductive RiskLevel where
  | low
  | medium
  | high
deriving DecidableEq

/-- Rank of a risk level in the ordering Low < Medium < High. -/
def RiskLevel.rank : RiskLevel → Nat
  | .low => 0
  | .medium => 1
  | .high => 2

/-- Larger of two risk levels under the Low < Medium < High ordering. -/
def RiskLevel.maxLevel (a b : RiskLevel) : RiskLevel :=
  if a.rank ≤ b.rank then b else a

/-- Modelled from the spec: the AnalysisOrchestrator (spec 4.5) is
missing from the repository sources.  The global risk level of an
AnalysisResult is the maximum of the per-region levels, not an average. -/
def globalRiskLevel (levels : List RiskLevel) : RiskLevel :=
  levels.foldr RiskLevel.maxLevel .low

/-- The six risk factors of the risk model (spec 3 and the repository
DOCUMENTATION.md Risk Assessment Model section). -/
inductive Factor where
  | political_stability
  | economic_conditions
  | diplomatic_relations
  | regional_conflicts
  | trade_relations
  | regulatory_environment
deriving DecidableEq

/-- Fixed factor weights: 0.25, 0.20, 0.20, 0.15, 0.10, 0.10 (spec 3 and
DOCUMENTATION.md). -/
def riskFactorWeights : Factor → ℚ
  | .political_stability => 25/100
  | .economic_conditions => 20/100
  | .diplomatic_relations => 20/100
  | .regional_conflicts => 15/100
  | .trade_relations => 10/100
  | .regulatory_environment => 10/100

/-- The factor list in the documented order. -/
def allFactors : List Factor :=
  [.political_stability, .economic_conditions, .diplomatic_relations,
   .regional_conflicts, .trade_relations, .regulatory_environment]

/-- Clamp to the unit interval. -/
def clamp01 (x : ℚ) : ℚ := max 0 (min 1 x)

/-- Modelled from the spec: RegionRiskScorer (spec 4.2) is missing from
the repository sources.  The score is the weight times raw score summed
over the factors, clamped to [0, 1]. -/
def weightedScore (raw : Factor → ℚ) : ℚ :=
  clamp01 ((allFactors.map fun f => riskFactorWeights f * raw f).sum)

/-- Raw factor scores of the worked example of spec 8: 0.9, 0.5, 0.6,
0.8, 0.3, 0.4. -/
def exampleRawScores : Factor → ℚ
  | .political_stability => 9/10
  | .economic_conditions => 5/10
  | .diplomatic_relations => 6/10
  | .regional_conflicts => 8/10
  | .trade_relations => 3/10
  | .regulatory_environment => 4/10

/-- Concrete sector with impact 0.5, used to instantiate theorems with
hypotheses at a checkable input. -/
def demoSector : SectorImpact := ⟨"Energy", 5/10, 4/10, 3/10, 890000⟩

/-- Concrete news list used to instantiate theorems with hypotheses at a
checkable input. -/
def demoNews : List NewsItem :=
  [⟨1, "A", "S", "d", "s", 8/10, "Europe"⟩,
   ⟨2, "B", "S", "d", "s", -(6/10), "Asia-Pacific"⟩,
   ⟨3, "C", "S", "d", "s", 1/10, "Europe"⟩]

/-- The risk level string helper of the pages characterised by its
thresholds: Low below 0.3, Medium from 0.3 up to 0.6, High from 0.6. -/
theorem getRiskLevel_string_iff (s : ℚ) :
    (RiskAssessment.getRiskLevel s = "Low" ↔ s < 3/10)
  ∧ (RiskAssessment.getRiskLevel s = "Medium" ↔ 3/10 ≤ s ∧ s < 6/10)
  ∧ (RiskAssessment.getRiskLevel s = "High" ↔ 6/10 ≤ s) := by
  unfold RiskAssessment.getRiskLevel
  split_ifs with h1 h2 <;>
    refine ⟨?_, ?_, ?_⟩ <;>
    simp_all <;>
    linarith

/-- The three summary buckets of the RiskAssessment page classify every
entry into exactly one bucket. -/
theorem riskBucket_counts_partition (xs : List RegionRisk) :
    xs.countP (fun r => decide (r.risk < 3/10))
      + xs.countP (fun r => decide (3/10 ≤ r.risk ∧ r.risk < 6/10))
      + xs.countP (fun r => decide (6/10 ≤ r.risk)) = xs.length := by
  induction xs with
  | nil => rfl
  | cons x xs ih =>
    simp only [List.countP_cons, List.length_cons]
    have hx : (if decide (x.risk < 3/10) then 1 else 0)
        + (if decide (3/10 ≤ x.risk ∧ x.risk < 6/10) then 1 else 0)
        + (if decide (6/10 ≤ x.risk) then 1 else 0) = 1 := by
      by_cases h1 : x.risk < 3/10
      · have m1 : ¬(3/10 ≤ x.risk ∧ x.risk < 6/10) := fun hc => absurd h1 (not_lt.mpr hc.1)
        have m2 : ¬(6/10 ≤ x.risk) := fun hc => by linarith
        simp [h1, m1, m2]
      · by_cases h2 : x.risk < 6/10
        · have m1 : 3/10 ≤ x.risk ∧ x.risk < 6/10 := ⟨not_lt.mp h1, h2⟩
          have m2 : ¬(6/10 ≤ x.risk) := not_le.mpr h2
          simp [h1, m1, m2]
        · have m2 : 6/10 ≤ x.risk := not_lt.mp h2
          have m1 : ¬(3/10 ≤ x.risk ∧ x.risk < 6/10) := fun hc => h2 hc.2
          simp [h1, m1, m2]
    omega

/-- The three sentiment classes characterised by their thresholds and
matched with the colour helper of the RealTimeAnalysis page. -/
theorem sentiment_class_iff (s : ℚ) :
    (isPositiveSent s = true ↔ s > 3/10)
  ∧ (isNegativeSent s = true ↔ s < -(3/10))
  ∧ (isNeutralSent s = true ↔ (¬s > 3/10 ∧ ¬s < -(3/10)))
  ∧ (isPositiveSent s = true ↔ RealTime.getSentimentColor s = "text-success-600")
  ∧ (isNegativeSent s = true ↔ RealTime.getSentimentColor s = "text-danger-600") := by
  unfold isNeutralSent isPositiveSent isNegativeSent RealTime.getSentimentColor
  by_cases h1 : s > 3/10 <;> by_cases h2 : s < -(3/10)
  · linarith
  all_goals refine ⟨?_, ?_, ?_, ?_, ?_⟩ <;> simp [h1, h2]

/-- The three sentiment classes classify every news item into exactly one
class. -/
theorem sentiment_counts_partition (items : List NewsItem) :
    (items.countP fun i => isPositiveSent i.sentiment)
      + (items.countP fun i => isNegativeSent i.sentiment)
      + (items.countP fun i => isNeutralSent i.sentiment) = items.length := by
  induction items with
  | nil => rfl
  | cons x xs ih =>
    simp only [List.countP_cons, List.length_cons]
    have hx : (if isPositiveSent x.sentiment then 1 else 0)
        + (if isNegativeSent x.sentiment then 1 else 0)
        + (if isNeutralSent x.sentiment then 1 else 0) = 1 := by
      unfold isNeutralSent isPositiveSent isNegativeSent
      by_cases h1 : x.sentiment > 3/10 <;> by_cases h2 : x.sentiment < -(3/10)
      · linarith
      all_goals simp [h1, h2]
    omega

/-- The first of two levels is never above their maximum. -/
theorem rank_le_maxLevel_left (a b : RiskLevel) : a.rank ≤ (RiskLevel.maxLevel a b).rank := by
  unfold RiskLevel.maxLevel
  split_ifs with h
  · exact h
  · exact le_refl _

/-- The second of two levels is never above their maximum. -/
theorem rank_le_maxLevel_right (a b : RiskLevel) : b.rank ≤ (RiskLevel.maxLevel a b).rank := by
  unfold RiskLevel.maxLevel
  split_ifs with h
  · exact le_refl _
  · omega

/-- The global risk level of a nonempty level list is one of the listed
levels. -/
theorem globalRiskLevel_mem (ls : List RiskLevel) (h : ls ≠ []) : globalRiskLevel ls ∈ ls := by
  induction ls with
  | nil => exact absurd rfl h
  | cons a xs ih =>
    show RiskLevel.maxLevel a (globalRiskLevel xs) ∈ a :: xs
    unfold RiskLevel.maxLevel
    split_ifs with hle
    · rcases eq_or_ne xs [] with hnil | hne
      · subst hnil
        cases a <;> simp_all [globalRiskLevel, RiskLevel.rank]
      · exact List.mem_cons_of_mem a (ih hne)
    · exact List.mem_cons_self a xs

/-- Every listed level is bounded by the global risk level. -/
theorem globalRiskLevel_is_ub (ls : List RiskLevel) (l : RiskLevel) (hl : l ∈ ls) :
    l.rank ≤ (globalRiskLevel ls).rank := by
  induction ls with
  | nil => cases hl
  | cons a xs ih =>
    rcases List.mem_cons.mp hl with rfl | hmem
    · exact rank_le_maxLevel_left _ _
    · exact le_trans (ih hmem) (rank_le_maxLevel_right _ _)

/-- Claim C1: the claim states risk level boundaries exactly at 0.4 and
0.7 (Low below 0.4, Medium from 0.4 below 0.7, High from 0.7), matching
the Risk Levels section of the repository DOCUMENTATION.md.  The code of
both cited getRiskLevel helpers instead switches at 0.3 and 0.6: this
theorem evaluates the code at the failing inputs, showing the score 0.35
labelled Medium (claim and documentation say Low) and 0.65 labelled High
(claim and documentation say Medium); the two helpers agree everywhere. -/
theorem claim1_riskLevel_boundaries_are_03_06 :
    Dashboard.getRiskLevel (35/100) = "Medium"
  ∧ RiskAssessment.getRiskLevel (35/100) = "Medium"
  ∧ Dashboard.getRiskLevel (65/100) = "High"
  ∧ RiskAssessment.getRiskLevel (65/100) = "High"
  ∧ ∀ s : ℚ, Dashboard.getRiskLevel s = RiskAssessment.getRiskLevel s := by
  refine ⟨?_, ?_, ?_, ?_, fun s => rfl⟩ <;>
    norm_num [Dashboard.getRiskLevel, RiskAssessment.getRiskLevel]

/-- Claim C2: the claim says a failed collaborator contributes an empty
set, the result is computed from the remaining real inputs and flagged
degraded, and fabricated data is never silently substituted.  The cited
fetchData does the opposite: whichever single source fails, the catch
branch of the Promise.all join discards the real data of the other source
as well, renders the hard-coded nonempty mock lists for both, and the
resulting state carries no degraded flag of any kind (its type has no
such field). -/
theorem claim2_fetchData_substitutes_mock_data_unflagged :
    (∀ ms : List MarketQuote,
      RealTime.fetchData .none (.some ms) = (RealTime.mockNews, RealTime.mockMarketData))
  ∧ (∀ ns : List NewsItem,
      RealTime.fetchData (.some ns) .none = (RealTime.mockNews, RealTime.mockMarketData))
  ∧ RealTime.mockNews.length = 3
  ∧ RealTime.mockMarketData.length = 5 := by
  exact ⟨fun ms => rfl, fun ns => rfl, rfl, rfl⟩

/-- Claim C3: with the documented weights and the example raw scores the
weighted sum is exactly 0.635 as the claim states, but the cited
getRiskLevel code labels 0.635 High (its boundary is 0.6), while the
claim and the DOCUMENTATION.md Risk Levels section (Medium up to 0.7) say
Medium. -/
theorem claim3_example_score_635_labelled_high :
    weightedScore exampleRawScores = 635/1000
  ∧ RiskAssessment.getRiskLevel (635/1000) = "High"
  ∧ RiskAssessment.getRiskLevel (weightedScore exampleRawScores) = "High" := by
  have hs : weightedScore exampleRawScores = 635/1000 := by
    norm_num [weightedScore, clamp01, allFactors, riskFactorWeights, exampleRawScores]
  refine ⟨hs, ?_, ?_⟩
  · norm_num [RiskAssessment.getRiskLevel]
  · rw [hs]
    norm_num [RiskAssessment.getRiskLevel]

/-- Claim C4: for every impact value, the recommendation of the
MarketImpact page is Monitor Closely exactly when impact exceeds 0.7,
Watch for Changes exactly when impact is above 0.4 and at most 0.7, and
Stable exactly when impact is at most 0.4; the getImpactLevel helper
agrees level for level. -/
theorem claim4_recommendation_boundaries (impact : ℚ) :
    (MarketImpact.recommendation impact = "Monitor Closely" ↔ 7/10 < impact)
  ∧ (MarketImpact.recommendation impact = "Watch for Changes" ↔ 4/10 < impact ∧ impact ≤ 7/10)
  ∧ (MarketImpact.recommendation impact = "Stable" ↔ impact ≤ 4/10)
  ∧ (MarketImpact.getImpactLevel impact = "High" ↔
      MarketImpact.recommendation impact = "Monitor Closely")
  ∧ (MarketImpact.getImpactLevel impact = "Medium" ↔
      MarketImpact.recommendation impact = "Watch for Changes")
  ∧ (MarketImpact.getImpactLevel impact = "Low" ↔
      MarketImpact.recommendation impact = "Stable") := by
  unfold MarketImpact.recommendation MarketImpact.getImpactLevel
  split_ifs with h1 h2 <;>
    refine ⟨?_, ?_, ?_, ?_, ?_, ?_⟩ <;>
    simp_all <;>
    linarith

/-- Claim C5: each news item is counted positive exactly when its
sentiment exceeds 0.3, negative exactly when it is below -0.3 and neutral
otherwise (the same comparisons as the sentiment colour helper of the
page), and on nonempty input the three shares are the class counts
normalized by the item count and sum to one. -/
theorem claim5_sentiment_shares_partition (items : List NewsItem) (h : items ≠ []) :
    (aggregateSentiment items).positiveShare
        = ((items.countP fun i => isPositiveSent i.sentiment : ℕ) : ℚ) / items.length
  ∧ (aggregateSentiment items).negativeShare
        = ((items.countP fun i => isNegativeSent i.sentiment : ℕ) : ℚ) / items.length
  ∧ (aggregateSentiment items).neutralShare
        = ((items.countP fun i => isNeutralSent i.sentiment : ℕ) : ℚ) / items.length
  ∧ (∀ s : ℚ, (isPositiveSent s = true ↔ s > 3/10)
        ∧ (isNegativeSent s = true ↔ s < -(3/10))
        ∧ (isNeutralSent s = true ↔ (¬s > 3/10 ∧ ¬s < -(3/10)))
        ∧ (isPositiveSent s = true ↔ RealTime.getSentimentColor s = "text-success-600")
        ∧ (isNegativeSent s = true ↔ RealTime.getSentimentColor s = "text-danger-600"))
  ∧ (aggregateSentiment items).positiveShare + (aggregateSentiment items).negativeShare
        + (aggregateSentiment items).neutralShare = 1 := by
  have hlen : items.length ≠ 0 := fun hh => h (List.length_eq_zero.mp hh)
  have hagg : aggregateSentiment items
      = ⟨((items.countP fun i => isPositiveSent i.sentiment : ℕ) : ℚ) / items.length,
         ((items.countP fun i => isNegativeSent i.sentiment : ℕ) : ℚ) / items.length,
         ((items.countP fun i => isNeutralSent i.sentiment : ℕ) : ℚ) / items.length,
         ((items.map fun i => i.sentiment).sum) / items.length⟩ := by
    rw [aggregateSentiment, if_neg hlen]
  refine ⟨by rw [hagg], by rw [hagg], by rw [hagg], fun s => sentiment_class_iff s, ?_⟩
  rw [hagg]
  have hp := sentiment_counts_partition items
  have hl : (items.length : ℚ) ≠ 0 := Nat.cast_ne_zero.mpr hlen
  show ((items.countP fun i => isPositiveSent i.sentiment : ℕ) : ℚ) / items.length
      + ((items.countP fun i => isNegativeSent i.sentiment : ℕ) : ℚ) / items.length
      + ((items.countP fun i => isNeutralSent i.sentiment : ℕ) : ℚ) / items.length = 1
  field_simp
  exact_mod_cast hp

/-- Claim C5 witness: the theorem instantiated at the concrete three item
demo list. -/
theorem claim5_sentiment_shares_partition_witness :
    (aggregateSentiment demoNews).positiveShare + (aggregateSentiment demoNews).negativeShare
      + (aggregateSentiment demoNews).neutralShare = 1 :=
  (claim5_sentiment_shares_partition demoNews
    (by unfold demoNews; exact List.cons_ne_nil _ _)).2.2.2.2

/-- Claim C6: the global risk level is the maximum of the per-region
levels under the ordering Low < Medium < High: it bounds every listed
level, it is itself one of the listed levels, and the list
[Low, Medium, High] yields High. -/
theorem claim6_globalRiskLevel_is_max (ls : List RiskLevel) (l : RiskLevel) (hl : l ∈ ls) :
    l.rank ≤ (globalRiskLevel ls).rank
  ∧ globalRiskLevel ls ∈ ls
  ∧ globalRiskLevel [.low, .medium, .high] = .high :=
  ⟨globalRiskLevel_is_ub ls l hl, globalRiskLevel_mem ls (List.ne_nil_of_mem hl), by decide⟩

/-- Claim C6 witness: the theorem instantiated at the list
[Low, Medium, High] with its member Medium. -/
theorem claim6_globalRiskLevel_is_max_witness :
    globalRiskLevel [.low, .medium, .high] ∈ ([.low, .medium, .high] : List RiskLevel)
  ∧ globalRiskLevel [.low, .medium, .high] = .high :=
  ⟨(claim6_globalRiskLevel_is_max [.low, .medium, .high] .medium (by simp)).2.1,
   (claim6_globalRiskLevel_is_max [.low, .medium, .high] .medium (by simp)).2.2⟩

/-- Claim C7: the sentiment aggregation of the empty input returns all
zero shares and zero mean sentiment without failing, and the empty guards
of the HistoricalAnalysis summary cells likewise render zero instead of
dividing by a zero count. -/
theorem claim7_empty_input_returns_zeros :
    aggregateSentiment [] = ⟨0, 0, 0, 0⟩
  ∧ Historical.avgPrice [] = 0
  ∧ Historical.avgVolumeMillions [] = 0
  ∧ Historical.avgVolatilityPercent [] = 0 :=
  ⟨rfl, rfl, rfl, rfl⟩

/-- Claim C8: with the default threshold 0.03, the trend is stable
exactly when the delta is below the threshold in magnitude, increasing
exactly when the delta is positive and at least the threshold in
magnitude, decreasing exactly when it is negative and at least the
threshold in magnitude; one snapshot, and a single repeated snapshot,
always give stable. -/
theorem claim8_trend_boundaries (prev latest : ℚ) :
    (classifyTrend (3/100) prev latest = .stable ↔ |latest - prev| < 3/100)
  ∧ (classifyTrend (3/100) prev latest = .increasing ↔
      0 < latest - prev ∧ 3/100 ≤ |latest - prev|)
  ∧ (classifyTrend (3/100) prev latest = .decreasing ↔
      latest - prev < 0 ∧ 3/100 ≤ |latest - prev|)
  ∧ (∀ s : ℚ, trendOfSnapshots (3/100) [s] = .stable)
  ∧ (∀ s : ℚ, trendOfSnapshots (3/100) [s, s] = .stable) := by
  refine ⟨?_, ?_, ?_, fun s => rfl, fun s => ?_⟩
  · unfold classifyTrend
    split_ifs with h1 h2
    · simp [h1]
    · exact ⟨fun hc => absurd hc (by decide), fun hx => absurd hx h1⟩
    · exact ⟨fun hc => absurd hc (by decide), fun hx => absurd hx h1⟩
  · unfold classifyTrend
    split_ifs with h1 h2
    · exact ⟨fun hc => absurd hc (by decide), fun hx => absurd h1 (not_lt.mpr hx.2)⟩
    · exact ⟨fun _ => ⟨h2, not_lt.mp h1⟩, fun _ => rfl⟩
    · exact ⟨fun hc => absurd hc (by decide), fun hx => absurd hx.1 h2⟩
  · unfold classifyTrend
    split_ifs with h1 h2
    · exact ⟨fun hc => absurd hc (by decide), fun hx => absurd h1 (not_lt.mpr hx.2)⟩
    · exact ⟨fun hc => absurd hc (by decide), fun hx => absurd h2 (not_lt.mpr hx.1.le)⟩
    · refine ⟨fun _ => ⟨?_, not_lt.mp h1⟩, fun _ => rfl⟩
      have hge : 3/100 ≤ |latest - prev| := not_lt.mp h1
      rcases lt_or_eq_of_le (not_lt.mp h2) with hd | hd
      · exact hd
      · rw [hd, abs_zero] at hge
        linarith
  · show classifyTrend (3/100) s s = .stable
    unfold classifyTrend
    rw [sub_self, abs_zero, if_pos (by norm_num)]

/-- Claim C9: the three Risk Summary buckets of the RiskAssessment page
partition the risk list, and each bucket count equals the count of
entries that getRiskLevel labels Low, Medium and High respectively. -/
theorem claim9_risk_summary_buckets_partition (riskData : List RegionRisk) :
    RiskAssessment.lowRiskCount riskData + RiskAssessment.mediumRiskCount riskData
      + RiskAssessment.highRiskCount riskData = riskData.length
  ∧ RiskAssessment.lowRiskCount riskData
      = riskData.countP (fun r => decide (RiskAssessment.getRiskLevel r.risk = "Low"))
  ∧ RiskAssessment.mediumRiskCount riskData
      = riskData.countP (fun r => decide (RiskAssessment.getRiskLevel r.risk = "Medium"))
  ∧ RiskAssessment.highRiskCount riskData
      = riskData.countP (fun r => decide (RiskAssessment.getRiskLevel r.risk = "High")) := by
  have elow : RiskAssessment.lowRiskCount riskData
      = riskData.countP (fun r => decide (r.risk < 3/10)) := by
    rw [RiskAssessment.lowRiskCount, ← List.countP_eq_length_filter]
  have emed : RiskAssessment.mediumRiskCount riskData
      = riskData.countP (fun r => decide (3/10 ≤ r.risk ∧ r.risk < 6/10)) := by
    rw [RiskAssessment.mediumRiskCount, ← List.countP_eq_length_filter]
  have ehigh : RiskAssessment.highRiskCount riskData
      = riskData.countP (fun r => decide (6/10 ≤ r.risk)) := by
    rw [RiskAssessment.highRiskCount, ← List.countP_eq_length_filter]
  refine ⟨?_, ?_, ?_, ?_⟩
  · rw [elow, emed, ehigh]
    exact riskBucket_counts_partition riskData
  · rw [elow]
    refine List.countP_congr fun r _ => ?_
    simp only [decide_eq_true_eq]
    exact ((getRiskLevel_string_iff r.risk).1).symm
  · rw [emed]
    refine List.countP_congr fun r _ => ?_
    simp only [decide_eq_true_eq]
    exact ((getRiskLevel_string_iff r.risk).2.1).symm
  · rw [ehigh]
    refine List.countP_congr fun r _ => ?_
    simp only [decide_eq_true_eq]
    exact ((getRiskLevel_string_iff r.risk).2.2).symm

/-- Claim C10: a sector with impact in the closed interval from 0.4 to
0.7 appears in neither the High Impact Sectors list (impact above 0.7)
nor the Stable Sectors list (impact below 0.4), and the two lists are
disjoint for every input. -/
theorem claim10_recommendation_lists_disjoint (impactData : List SectorImpact)
    (x : SectorImpact) (h1 : 4/10 ≤ x.impact) (h2 : x.impact ≤ 7/10) :
    x ∉ MarketImpact.highImpactSectors impactData
  ∧ x ∉ MarketImpact.stableSectors impactData
  ∧ ∀ y ∈ MarketImpact.highImpactSectors impactData,
      y ∉ MarketImpact.stableSectors impactData := by
  refine ⟨?_, ?_, ?_⟩
  · intro hmem
    have hx := (List.mem_filter.mp hmem).2
    simp only [decide_eq_true_eq] at hx
    linarith
  · intro hmem
    have hx := (List.mem_filter.mp hmem).2
    simp only [decide_eq_true_eq] at hx
    linarith
  · intro y hy hz
    have hyh := (List.mem_filter.mp hy).2
    have hys := (List.mem_filter.mp hz).2
    simp only [decide_eq_true_eq] at hyh hys
    linarith

/-- Claim C10 witness: the theorem instantiated at the concrete sector
with impact 0.5, which lands in neither list. -/
theorem claim10_recommendation_lists_disjoint_witness :
    ((4:ℚ)/10 ≤ demoSector.impact ∧ demoSector.impact ≤ 7/10)
  ∧ demoSector ∉ MarketImpact.highImpactSectors [demoSector]
  ∧ demoSector ∉ MarketImpact.stableSectors [demoSector] :=
  ⟨⟨by norm_num [demoSector], by norm_num [demoSector]⟩,
   (claim10_recommendation_lists_disjoint [demoSector] demoSector
      (by norm_num [demoSector]) (by norm_num [demoSector])).1,
   (claim10_recommendation_lists_disjoint [demoSector] demoSector
      (by norm_num [demoSector]) (by norm_num [demoSector])).2.1⟩

end GeoMarket
